import Mathlib

/-!
Shallow embedding of the traffic-simulator core
(src/TrafficSignalController.js, src/unnamed/part_005 = constants.js +
TrafficCalculator.js, src/unnamed/part_000 = MessageHandler.js,
src/unnamed/part_003 = traffic-signal-server, ClientManager/ClientConnection
as listed in src/COMPLETION_REPORT.md).

Modelling conventions:
* JS numbers that only ever hold integral millisecond timestamps or whole
  seconds are modelled as Int; demand scores (which involve the 2.5 heavy
  weight) as Rat.
* Math.round is modelled as jsRound, the floor of x + 1/2, which agrees with
  JS Math.round on all inputs (halves round toward positive infinity).
* JSON.stringify of the fixed-shape signal-state object (keys A,B,C,D in
  fixed insertion order) is injective, so the stored last-broadcast string
  marker is modelled as the SignalState value itself and string comparison
  as decidable equality of SignalState.
-/

namespace TrafficSim

/-- constants.js ROUTES: closed four-element route set. -/
inductive Route
  | A
  | B
  | C
  | D
deriving DecidableEq, Repr, Fintype

/-- constants.js SIGNAL_STATES. -/
inductive Signal
  | GREEN
  | YELLOW
  | RED
deriving DecidableEq, Repr

/-- constants.js PHASES. -/
inductive Phase
  | PHASE_AC_GREEN
  | PHASE_AC_YELLOW
  | PHASE_BD_GREEN
  | PHASE_BD_YELLOW
deriving DecidableEq, Repr

open Route Signal Phase

/-- constants.js TIMING.MIN_GREEN (seconds). -/
def MIN_GREEN : Int := 5

/-- constants.js TIMING.MAX_GREEN (seconds). -/
def MAX_GREEN : Int := 60

/-- constants.js TIMING.YELLOW_DURATION (seconds). -/
def YELLOW_DURATION : Int := 3

/-- constants.js TRAFFIC_WEIGHTS.NORMAL_VEHICLE. -/
def NORMAL_VEHICLE : ℚ := 1

/-- constants.js TRAFFIC_WEIGHTS.HEAVY_VEHICLE. -/
def HEAVY_VEHICLE : ℚ := 5 / 2

/-- JS Math.round: floor of x + 1/2 (halves round toward positive infinity). -/
def jsRound (x : ℚ) : Int := (x + 1 / 2).floor

/-- TrafficCalculator.calculateDemand: vehicles * 1 + heavyVehicles * 2.5. -/
def calculateDemand (vehicleCount heavyVehicleCount : ℚ) : ℚ :=
  vehicleCount * NORMAL_VEHICLE + heavyVehicleCount * HEAVY_VEHICLE

/-- TrafficCalculator.calculateGreenDuration.  Inputs are clamped with
Math.max(0, Number(d) || 0); the pair under evaluation is chosen from the
phase argument; zero total demand returns MIN_GREEN, otherwise
round(MIN_GREEN + (MAX_GREEN - MIN_GREEN) * pair1Ratio * 0.8). -/
def calculateGreenDuration (demandA demandB demandC demandD : ℚ)
    (phase : Phase) : Int :=
  let a := max 0 demandA
  let b := max 0 demandB
  let c := max 0 demandC
  let d := max 0 demandD
  let pair1Demand : ℚ :=
    match phase with
    | PHASE_AC_GREEN => a + c
    | PHASE_AC_YELLOW => a + c
    | _ => b + d
  let pair2Demand : ℚ :=
    match phase with
    | PHASE_AC_GREEN => b + d
    | PHASE_AC_YELLOW => b + d
    | _ => a + c
  let totalDemand := pair1Demand + pair2Demand
  if totalDemand = 0 then
    MIN_GREEN
  else
    let pair1Ratio := pair1Demand / totalDemand
    let timeRange : ℚ := (MAX_GREEN : ℚ) - (MIN_GREEN : ℚ)
    jsRound ((MIN_GREEN : ℚ) + timeRange * pair1Ratio * (8 / 10))

/-- Per-route traffic sample: { vehicles, heavyVehicles }. -/
structure RouteTraffic where
  vehicles : Nat
  heavyVehicles : Nat
deriving DecidableEq, Repr

/-- Signal colors for the four routes (the signalState object, fixed key
order A, B, C, D). -/
structure SignalState where
  a : Signal
  b : Signal
  c : Signal
  d : Signal
deriving DecidableEq, Repr

/-- Traffic samples for the four routes (the trafficData object). -/
structure TrafficData where
  a : RouteTraffic
  b : RouteTraffic
  c : RouteTraffic
  d : RouteTraffic
deriving DecidableEq, Repr

/-- Read one route's signal color. -/
def SignalState.get (s : SignalState) : Route → Signal
  | A => s.a
  | B => s.b
  | C => s.c
  | D => s.d

/-- Read one route's traffic sample. -/
def TrafficData.get (t : TrafficData) : Route → RouteTraffic
  | A => t.a
  | B => t.b
  | C => t.c
  | D => t.d

/-- Overwrite one route's traffic sample. -/
def TrafficData.set (t : TrafficData) : Route → RouteTraffic → TrafficData
  | A, r => { t with a := r }
  | B, r => { t with b := r }
  | C, r => { t with c := r }
  | D, r => { t with d := r }

/-- All four routes RED. -/
def allRed : SignalState := ⟨RED, RED, RED, RED⟩

/-- All four traffic samples zeroed. -/
def zeroTraffic : TrafficData := ⟨⟨0, 0⟩, ⟨0, 0⟩, ⟨0, 0⟩, ⟨0, 0⟩⟩

/-- The mutable state of TrafficSignalController (logger and the derived
yellowTimeRemaining display field omitted; timestamps in ms). -/
structure ControllerState where
  signalState : SignalState
  trafficData : TrafficData
  currentPhase : Phase
  phaseStartTime : Int
  currentPhaseDuration : Int
  isInYellow : Bool
  lastBroadcastState : SignalState
deriving DecidableEq, Repr

/-- TrafficSignalController constructor, with Date.now() passed in as now.
Note: it sets currentPhase to PHASE_AC_GREEN but leaves every signal RED;
applyPhaseSignals is NOT called here (unlike in reset). -/
def initialState (now : Int) : ControllerState :=
  { signalState := allRed
    trafficData := zeroTraffic
    currentPhase := PHASE_AC_GREEN
    phaseStartTime := now
    currentPhaseDuration := MIN_GREEN
    isInYellow := false
    lastBroadcastState := allRed }

/-- TrafficSignalController.updateTrafficData for a route of the closed set
(the JS guard throws only for a route outside it, which the Route type
excludes).  parseInt on an integral count is the identity; Math.max(0, x)
on an Int is Int.toNat. -/
def updateTrafficData (s : ControllerState) (route : Route)
    (vehicles heavyVehicles : Int) : ControllerState :=
  { s with trafficData :=
      s.trafficData.set route ⟨vehicles.toNat, heavyVehicles.toNat⟩ }

/-- TrafficCalculator.calculateAllDemands on the four stored samples. -/
def calculateAllDemands (t : TrafficData) : Route → ℚ := fun r =>
  calculateDemand ((t.get r).vehicles : ℚ) ((t.get r).heavyVehicles : ℚ)

/-- TrafficSignalController.applyPhaseSignals: reset all to RED, then set
the active pair per the current phase. -/
def applyPhaseSignals (phase : Phase) : SignalState :=
  match phase with
  | PHASE_AC_GREEN => { allRed with a := GREEN, c := GREEN }
  | PHASE_AC_YELLOW => { allRed with a := YELLOW, c := YELLOW }
  | PHASE_BD_GREEN => { allRed with b := GREEN, d := GREEN }
  | PHASE_BD_YELLOW => { allRed with b := YELLOW, d := YELLOW }

/-- TrafficSignalController.executePhaseTransition with Date.now() = now. -/
def executePhaseTransition (now : Int) (s : ControllerState) :
    ControllerState :=
  let demands := calculateAllDemands s.trafficData
  let demandA := demands A
  let demandB := demands B
  let demandC := demands C
  let demandD := demands D
  let nextPhase :=
    if s.isInYellow then
      if s.currentPhase = PHASE_AC_YELLOW then PHASE_BD_GREEN
      else PHASE_AC_GREEN
    else
      if s.currentPhase = PHASE_AC_GREEN then PHASE_AC_YELLOW
      else PHASE_BD_YELLOW
  let nextPhaseDuration :=
    if s.isInYellow then
      calculateGreenDuration demandA demandB demandC demandD nextPhase
    else
      YELLOW_DURATION
  { s with
    isInYellow := !s.isInYellow
    currentPhase := nextPhase
    currentPhaseDuration := nextPhaseDuration
    phaseStartTime := now
    signalState := applyPhaseSignals nextPhase }

/-- TrafficSignalController.updatePhase with Date.now() = now: elapsed
seconds are Math.round((now - phaseStartTime) / 1000); a transition runs
exactly when elapsed is at least the committed duration. -/
def updatePhase (now : Int) (s : ControllerState) : Bool × ControllerState :=
  let elapsedTime := jsRound (((now - s.phaseStartTime : Int) : ℚ) / 1000)
  if s.currentPhaseDuration ≤ elapsedTime then
    (true, executePhaseTransition now s)
  else
    (false, s)

/-- TrafficSignalController.hasStateChanged: compares the serialized signal
state with the stored marker and, when they differ, overwrites the marker. -/
def hasStateChanged (s : ControllerState) : Bool × ControllerState :=
  let hasChanged : Bool := s.signalState ≠ s.lastBroadcastState
  if hasChanged then
    (true, { s with lastBroadcastState := s.signalState })
  else
    (false, s)

/-- TrafficSignalController.reset with Date.now() = now: zeroes signals and
traffic, returns to PHASE_AC_GREEN with MIN_GREEN, records the all-red
serialization as the broadcast marker, then applies the phase signals. -/
def resetController (now : Int) : ControllerState :=
  { signalState := applyPhaseSignals PHASE_AC_GREEN
    trafficData := zeroTraffic
    currentPhase := PHASE_AC_GREEN
    phaseStartTime := now
    currentPhaseDuration := MIN_GREEN
    isInYellow := false
    lastBroadcastState := allRed }

/-! ## Protocol layer: JSON values, MessageHandler (part_000), ClientManager
and ClientConnection (COMPLETION_REPORT.md listing), server message
processing and broadcast loop (part_003). -/

/-- A parsed JSON value.  A raw inbound frame is modelled post-JSON.parse as
Option Json: none stands for text JSON.parse throws on (malformed JSON,
empty line).  Objects are association lists in key order. -/
inductive Json
  | null
  | bool (b : Bool)
  | num (q : ℚ)
  | str (s : String)
  | arr (elems : List Json)
  | obj (fields : List (String × Json))

/-- JS member access m.k: the last binding wins for duplicate keys (as in
JSON.parse); none models undefined.  Member access on non-objects yields
undefined for array/string non-index keys; on null/undefined JS would throw,
which no reachable call site does for the claims below. -/
def jsGet : Json → String → Option Json
  | Json.obj fields, k =>
      (fields.reverse.find? (fun p => p.1 == k)).map (fun p => p.2)
  | _, _ => none

/-- JS truthiness of a field-access result (undefined, null, false, 0 and
the empty string are falsy). -/
def jsTruthy : Option Json → Bool
  | none => false
  | some Json.null => false
  | some (Json.bool b) => b
  | some (Json.num q) => !(q == 0)
  | some (Json.str s) => !(s == "")
  | some (Json.arr _) => true
  | some (Json.obj _) => true

/-- Truncation toward zero, the integral part JS parseInt keeps of a
numeric argument. -/
def jsTrunc (q : ℚ) : Int := if 0 ≤ q then ⌊q⌋ else ⌈q⌉

/-- Leading optional-sign digit-run parse of a string, as JS parseInt:
none is NaN.  (Leading whitespace and exotic coercions of arrays are not
modelled; no claim touches them.) -/
def parseIntString (s : String) : Option Int :=
  let core : List Char → Option Nat := fun cs =>
    let digits := cs.takeWhile Char.isDigit
    if digits.isEmpty then none
    else some (digits.foldl (fun n c => 10 * n + (c.toNat - 48)) 0)
  match s.toList with
  | '-' :: rest => (core rest).map (fun n => -(n : Int))
  | '+' :: rest => (core rest).map (fun n => (n : Int))
  | cs => (core cs).map (fun n => (n : Int))

/-- JS parseInt applied to a field-access result: none models NaN.
Booleans, null, objects coerce to non-numeric strings (NaN); arrays coerce
via join, not modelled (none); numbers truncate toward zero. -/
def jsParseInt : Option Json → Option Int
  | some (Json.num q) => some (jsTrunc q)
  | some (Json.str s) => parseIntString s
  | _ => none

/-- JS typeof x === 'object' (true for objects, arrays and null). -/
def jsTypeofObject : Json → Bool
  | Json.obj _ => true
  | Json.arr _ => true
  | Json.null => true
  | _ => false

/-- The route name strings, in the iteration order of
Object.values(ROUTES). -/
def routeKey : Route → String
  | A => "A"
  | B => "B"
  | C => "C"
  | D => "D"

/-- Object.values(ROUTES). -/
def allRoutes : List Route := [A, B, C, D]

/-- A validated per-route camera sample (entry of validatedData). -/
structure ValidatedRoute where
  vehicles : Nat
  heavyVehicles : Nat
deriving DecidableEq, Repr

/-- The typed result of MessageHandler.processIncomingMessage when
isValid is true. -/
inductive Command
  | cameraUpdate (data : List (Route × ValidatedRoute))
  | subscribe (routes : List Route)
  | unsubscribe (routes : List Route)
  | query (queryType : String)
deriving DecidableEq, Repr

/-- MessageHandler.parseMessage on the parse result of one trimmed frame:
unparsable text (none) and messages whose type field is falsy both yield
null. -/
def parseMessage (raw : Option Json) : Option Json :=
  match raw with
  | none => none
  | some message => if jsTruthy (jsGet message "type") then some message else none

/-- One route's step of MessageHandler.validateCameraUpdate: checks the
route sub-object and produces its validated entry (none when the key is
absent). -/
def validateCameraRoute (data : Json) (route : Route) :
    Except String (Option ValidatedRoute) :=
  match jsGet data (routeKey route) with
  | none => Except.ok none
  | some routeData =>
      if !jsTypeofObject routeData then
        Except.error ("Route " ++ routeKey route ++ " data must be an object")
      else
        let vehicles := jsParseInt (jsGet routeData "vehicles")
        let heavyVehicles := jsParseInt (jsGet routeData "heavyVehicles")
        if vehicles.isNone && (jsGet routeData "vehicles").isSome then
          Except.error
            ("Route " ++ routeKey route ++ " vehicles must be a valid number")
        else if heavyVehicles.isNone && (jsGet routeData "heavyVehicles").isSome then
          Except.error
            ("Route " ++ routeKey route ++ " heavyVehicles must be a valid number")
        else
          Except.ok (some
            ⟨(max 0 (vehicles.getD 0)).toNat, (max 0 (heavyVehicles.getD 0)).toNat⟩)

/-- MessageHandler.validateCameraUpdate: requires a truthy object data
field, then inspects exactly the four known route keys in order; other keys
are never looked at. -/
def validateCameraUpdate (message : Json) :
    Except String (List (Route × ValidatedRoute)) :=
  match jsGet message "data" with
  | some (Json.obj fields) =>
      (allRoutes.foldlM (fun acc route =>
        match validateCameraRoute (Json.obj fields) route with
        | Except.error e => Except.error e
        | Except.ok none => Except.ok acc
        | Except.ok (some v) => Except.ok (acc ++ [(route, v)])) [])
  | some (Json.arr _) =>
      -- typeof [] is object and arrays are truthy; no route key is present.
      Except.ok []
  | _ => Except.error "Camera update requires \"data\" object"

/-- Shared body of validateSubscribe / validateUnsubscribe: the literal
string all expands to every route; an array must consist solely of valid
route names; anything else is rejected. -/
def validateRoutesField (message : Json) (missingMsg badShapeMsg : String)
    (invalidRouteMsg : String → String) : Except String (List Route) :=
  match jsGet message "routes" with
  | routesField =>
    if !jsTruthy routesField then
      Except.error missingMsg
    else
      match routesField with
      | some (Json.str s) =>
          if s = "all" then Except.ok allRoutes else Except.error badShapeMsg
      | some (Json.arr elems) =>
          elems.foldlM (fun acc e =>
            match e with
            | Json.str s =>
                match allRoutes.find? (fun r => routeKey r == s) with
                | some r => Except.ok (acc ++ [r])
                | none => Except.error (invalidRouteMsg s)
            | _ => Except.error (invalidRouteMsg "non-string")) []
      | _ => Except.error badShapeMsg

/-- MessageHandler.validateSubscribe. -/
def validateSubscribe (message : Json) : Except String (List Route) :=
  validateRoutesField message
    "Subscribe requires \"routes\" field (array or \"all\")"
    "Routes must be an array or \"all\""
    (fun s => "Invalid route: " ++ s ++ ". Valid routes are: A, B, C, D")

/-- MessageHandler.validateUnsubscribe. -/
def validateUnsubscribe (message : Json) : Except String (List Route) :=
  validateRoutesField message
    "Unsubscribe requires \"routes\" field (array or \"all\")"
    "Routes must be an array or \"all\""
    (fun s => "Invalid route: " ++ s)

/-- MessageHandler.validateQuery: a falsy queryType field defaults to
status; otherwise the value must be one of the three valid query type
strings. -/
def validateQuery (message : Json) : Except String String :=
  let validQueryTypes := ["status", "phase", "traffic"]
  match jsGet message "queryType" with
  | qt =>
    if !jsTruthy qt then
      Except.ok "status"
    else
      match qt with
      | some (Json.str s) =>
          if validQueryTypes.contains s then Except.ok s
          else Except.error "Invalid query type. Valid types are: status, phase, traffic"
      | _ => Except.error "Invalid query type. Valid types are: status, phase, traffic"

/-- MessageHandler.processIncomingMessage: parse, dispatch on the type
string, validate; Except.error carries the error of the isValid = false
record. -/
def processIncomingMessage (raw : Option Json) : Except String Command :=
  match parseMessage raw with
  | none => Except.error "Failed to parse message"
  | some message =>
      match jsGet message "type" with
      | some (Json.str "CAMERA_UPDATE") =>
          (validateCameraUpdate message).map Command.cameraUpdate
      | some (Json.str "SUBSCRIBE") =>
          (validateSubscribe message).map Command.subscribe
      | some (Json.str "UNSUBSCRIBE") =>
          (validateUnsubscribe message).map Command.unsubscribe
      | some (Json.str "QUERY") =>
          (validateQuery message).map Command.query
      | _ => Except.error "Unknown message type"

/-- One connected session (ClientConnection): socket handle, timestamps and
buffered bytes omitted; the subscription Set is a duplicate-free list in
insertion order. -/
structure ClientConnection where
  id : Nat
  subscribedRoutes : List Route
  isActive : Bool
deriving DecidableEq, Repr

/-- ClientConnection.subscribeToRoutes: Set.add for each route. -/
def subscribeToRoutes (c : ClientConnection) (routes : List Route) :
    ClientConnection :=
  let updated := routes.foldl
    (fun acc r => if acc.contains r then acc else acc ++ [r])
    c.subscribedRoutes
  { c with subscribedRoutes := updated }

/-- ClientConnection.unsubscribeFromRoutes: Set.delete for each route. -/
def unsubscribeFromRoutes (c : ClientConnection) (routes : List Route) :
    ClientConnection :=
  { c with subscribedRoutes :=
      c.subscribedRoutes.filter (fun r => !(routes.contains r)) }

/-- ClientManager.getClient on the session list (Map values in id order). -/
def getClient (clients : List ClientConnection) (clientId : Nat) :
    Option ClientConnection :=
  clients.find? (fun c => c.id == clientId)

/-- ClientManager.getActiveClients. -/
def getActiveClients (clients : List ClientConnection) :
    List ClientConnection :=
  clients.filter (fun c => c.isActive)

/-- ClientManager.getSubscribedClients: with a null routes argument it
keeps exactly the active sessions having at least one subscription;
with a route list it keeps active sessions subscribed to any of them. -/
def getSubscribedClients (clients : List ClientConnection)
    (routes : Option (List Route)) : List Nat :=
  (clients.filter (fun client =>
    if !client.isActive then false
    else
      match routes with
      | none => !client.subscribedRoutes.isEmpty
      | some rs => rs.any (fun r => client.subscribedRoutes.contains r))).map
    (fun c => c.id)

/-- Phase information snapshot (getPhaseInfo; ISO timestamp omitted). -/
structure PhaseInfo where
  phase : Phase
  signalState : SignalState
  elapsedSeconds : Int
  totalDurationSeconds : Int
  remainingSeconds : Int
  isYellow : Bool
deriving DecidableEq, Repr

/-- TrafficSignalController.getPhaseInfo with Date.now() = now. -/
def getPhaseInfo (now : Int) (s : ControllerState) : PhaseInfo :=
  let elapsedTime := jsRound (((now - s.phaseStartTime : Int) : ℚ) / 1000)
  { phase := s.currentPhase
    signalState := s.signalState
    elapsedSeconds := elapsedTime
    totalDurationSeconds := s.currentPhaseDuration
    remainingSeconds := max 0 (s.currentPhaseDuration - elapsedTime)
    isYellow := s.isInYellow }

/-- Payload of an outbound STATUS frame (timestamps omitted; demands of a
status report are derived from its traffic samples). -/
inductive StatusPayload
  | welcome (clientId : Nat)
  | cameraAck (dataProcessed : Nat)
  | subscribeAck (routes : List Route)
  | unsubscribeAck (routes : List Route)
  | statusReport (info : PhaseInfo) (traffic : TrafficData)
  | phaseReport (info : PhaseInfo)
  | trafficReport (traffic : TrafficData)
deriving DecidableEq, Repr

/-- An outbound frame: formatMessage produces status, formatError error. -/
inductive Frame
  | status (payload : StatusPayload)
  | error (msg : String)
deriving DecidableEq, Repr

/-- ClientManager.broadcastMessage, returning the per-session deliveries:
with a route list the targets come from getSubscribedClients, but with the
null default they are ALL active clients, subscribed or not. -/
def broadcastMessage (clients : List ClientConnection) (message : Frame)
    (routes : Option (List Route)) (excludeClientIds : List Nat) :
    List (Nat × Frame) :=
  let targetClientIds : List Nat :=
    match routes with
    | some rs => getSubscribedClients clients (some rs)
    | none => (getActiveClients clients).map (fun c => c.id)
  let kept := targetClientIds.filter (fun i => !(excludeClientIds.contains i))
  kept.filterMap (fun clientId =>
    match getClient clients clientId with
    | some client => if client.isActive then some (clientId, message) else none
    | none => none)

/-- The server state touched by message processing: controller plus client
manager (TrafficSignalServer fields). -/
structure ServerState where
  signalController : ControllerState
  clients : List ClientConnection
  nextClientId : Nat
deriving DecidableEq, Repr

/-- Replace the session with the given id (in-place mutation of the Map
entry). -/
def setClient (clients : List ClientConnection) (clientId : Nat)
    (f : ClientConnection → ClientConnection) : List ClientConnection :=
  clients.map (fun c => if c.id == clientId then f c else c)

/-- TrafficSignalServer.handleCameraUpdate on validated data: one
updateTrafficData per validated route entry (every validated entry is a
truthy object), then a single STATUS acknowledgement. -/
def handleCameraUpdate (s : ServerState) (clientId : Nat)
    (data : List (Route × ValidatedRoute)) : ServerState × List (Nat × Frame) :=
  let controller := allRoutes.foldl
    (fun c route =>
      match data.lookup route with
      | some v => updateTrafficData c route (v.vehicles : Int) (v.heavyVehicles : Int)
      | none => c)
    s.signalController
  ({ s with signalController := controller },
    [(clientId, Frame.status (StatusPayload.cameraAck data.length))])

/-- TrafficSignalServer.handleSubscribe (the session exists here, so
subscribeClient succeeds). -/
def handleSubscribe (s : ServerState) (clientId : Nat)
    (routes : List Route) : ServerState × List (Nat × Frame) :=
  let clients := setClient s.clients clientId (fun c => subscribeToRoutes c routes)
  ({ s with clients := clients },
    [(clientId, Frame.status (StatusPayload.subscribeAck routes))])

/-- TrafficSignalServer.handleUnsubscribe. -/
def handleUnsubscribe (s : ServerState) (clientId : Nat)
    (routes : List Route) : ServerState × List (Nat × Frame) :=
  let clients := setClient s.clients clientId (fun c => unsubscribeFromRoutes c routes)
  ({ s with clients := clients },
    [(clientId, Frame.status (StatusPayload.unsubscribeAck routes))])

/-- TrafficSignalServer.handleQuery with Date.now() = now. -/
def handleQuery (now : Int) (s : ServerState) (clientId : Nat)
    (queryType : String) : ServerState × List (Nat × Frame) :=
  let payload :=
    match queryType with
    | "phase" => StatusPayload.phaseReport (getPhaseInfo now s.signalController)
    | "traffic" => StatusPayload.trafficReport s.signalController.trafficData
    | _ => StatusPayload.statusReport (getPhaseInfo now s.signalController)
        s.signalController.trafficData
  (s, [(clientId, Frame.status payload)])

/-- TrafficSignalServer.processClientMessage with Date.now() = now: a
missing session is ignored, an invalid message is answered with exactly one
ERROR frame, a valid one is dispatched by type. -/
def processClientMessage (now : Int) (s : ServerState) (clientId : Nat)
    (raw : Option Json) : ServerState × List (Nat × Frame) :=
  match getClient s.clients clientId with
  | none => (s, [])
  | some _ =>
      match processIncomingMessage raw with
      | Except.error e => (s, [(clientId, Frame.error e)])
      | Except.ok (Command.cameraUpdate data) => handleCameraUpdate s clientId data
      | Except.ok (Command.subscribe routes) => handleSubscribe s clientId routes
      | Except.ok (Command.unsubscribe routes) => handleUnsubscribe s clientId routes
      | Except.ok (Command.query queryType) => handleQuery now s clientId queryType

/-- One iteration of TrafficSignalServer.startBroadcasting with
Date.now() = now: if hasStateChanged consumes a change, the phase-info
STATUS frame is broadcast with broadcastMessage and its null default routes
argument. -/
def serverBroadcastTick (now : Int) (s : ServerState) :
    ServerState × List (Nat × Frame) :=
  let checked := hasStateChanged s.signalController
  if !checked.1 then
    ({ s with signalController := checked.2 }, [])
  else
    let message := Frame.status
      (StatusPayload.phaseReport (getPhaseInfo now checked.2))
    ({ s with signalController := checked.2 },
      broadcastMessage s.clients message none [])

/-! ## Derived definitions used to state the claims. -/

/-- The pair1Demand selected inside calculateGreenDuration (part_005 lines
110-121): the demand of the pair named by the phase, after clamping. -/
def pair1DemandOf (dA dB dC dD : ℚ) (phase : Phase) : ℚ :=
  match phase with
  | PHASE_AC_GREEN => max 0 dA + max 0 dC
  | PHASE_AC_YELLOW => max 0 dA + max 0 dC
  | _ => max 0 dB + max 0 dD

/-- The pair2Demand selected inside calculateGreenDuration: the demand of
the opposite pair, after clamping. -/
def pair2DemandOf (dA dB dC dD : ℚ) (phase : Phase) : ℚ :=
  match phase with
  | PHASE_AC_GREEN => max 0 dB + max 0 dD
  | PHASE_AC_YELLOW => max 0 dB + max 0 dD
  | _ => max 0 dA + max 0 dC

/-- Both routes of the A-C pair non-red. -/
def acPairNonRed (s : SignalState) : Bool := !(s.a == RED) && !(s.c == RED)

/-- Both routes of the B-D pair non-red. -/
def bdPairNonRed (s : SignalState) : Bool := !(s.b == RED) && !(s.d == RED)

/-- Both routes of the A-C pair red. -/
def acPairBothRed (s : SignalState) : Bool := (s.a == RED) && (s.c == RED)

/-- Both routes of the B-D pair red. -/
def bdPairBothRed (s : SignalState) : Bool := (s.b == RED) && (s.d == RED)

/-- The claimed signal invariant: exactly one of the two pairs has both
routes non-red while the other pair is entirely red. -/
def signalInvariant (s : SignalState) : Bool :=
  xor (acPairNonRed s && bdPairBothRed s) (bdPairNonRed s && acPairBothRed s)

/-- N phase-advance ticks, each taken exactly at the current phase's
duration boundary (now = phaseStartTime + 1000 ms * durationSeconds). -/
def boundaryRun (s : ControllerState) : Nat → ControllerState
  | 0 => s
  | n + 1 =>
      let prev := boundaryRun s n
      (updatePhase (prev.phaseStartTime + 1000 * prev.currentPhaseDuration) prev).2

/-- The fixed cyclic phase order the spec asserts, indexed from the initial
phase. -/
def phaseCycle (n : Nat) : Phase :=
  match n % 4 with
  | 0 => PHASE_AC_GREEN
  | 1 => PHASE_AC_YELLOW
  | 2 => PHASE_BD_GREEN
  | _ => PHASE_BD_YELLOW

/-- A CAMERA_UPDATE wire message with the given data object fields. -/
def mkCameraUpdateMsg (dataFields : List (String × Json)) : Json :=
  Json.obj [("type", Json.str "CAMERA_UPDATE"), ("data", Json.obj dataFields)]

/-! ## Theorems. -/

/-- jsRound agrees with the floor-notation form. -/
theorem jsRound_eq_floor (x : ℚ) : jsRound x = ⌊x + 1 / 2⌋ := rfl

/-- Evaluation rule for jsRound at a concrete value. -/
theorem jsRound_eq_of (x : ℚ) (z : Int) (h1 : (z : ℚ) ≤ x + 1 / 2)
    (h2 : x + 1 / 2 < (z : ℚ) + 1) : jsRound x = z := by
  rw [jsRound_eq_floor]
  exact Int.floor_eq_iff.mpr ⟨h1, h2⟩

/-- Claim C2 (code bug): the state produced by the constructor itself
violates the exactly-one-pair-non-red invariant: every route is RED there,
because the constructor, unlike reset, never calls applyPhaseSignals.  The
first executed transition and reset both restore the invariant. -/
theorem C2_constructor_state_all_red :
    (initialState 0).signalState = allRed ∧
    signalInvariant (initialState 0).signalState = false ∧
    signalInvariant (executePhaseTransition 0 (initialState 0)).signalState = true ∧
    signalInvariant (resetController 0).signalState = true := by
  refine ⟨rfl, rfl, ?_, rfl⟩
  decide

/-- Claim C6 counterexample: with the constructor state (duration
MIN_GREEN = 5 s, phaseStartTime 0) and now = 4500 ms, the elapsed wall time
4.5 s is strictly below the committed duration, yet updatePhase is not a
no-op: Math.round lifts 4.5 to 5 and the transition fires. -/
theorem C6_counterexample_early_fire :
    (((4500 : Int) : ℚ) - ((initialState 0).phaseStartTime : ℚ)) / 1000 <
      ((initialState 0).currentPhaseDuration : ℚ) ∧
    (updatePhase 4500 (initialState 0)).1 = true ∧
    (updatePhase 4500 (initialState 0)).2.currentPhase ≠
      (initialState 0).currentPhase := by
  have h5 : jsRound ((((4500 : Int) - (initialState 0).phaseStartTime : Int) : ℚ)
      / 1000) = 5 := by
    apply jsRound_eq_of <;> norm_num [initialState]
  refine ⟨by norm_num [initialState, MIN_GREEN], ?_, ?_⟩ <;>
    simp only [updatePhase, h5] <;> decide

/-- Claim C6 (amended): updatePhase is a no-op — returns false and leaves
the whole controller state unchanged — exactly when the rounded elapsed
seconds Math.round((now - phaseStartTime)/1000) are strictly below the
committed durationSeconds. -/
theorem C6_amended_noop_below_rounded_elapsed (now : Int) (s : ControllerState)
    (h : jsRound (((now - s.phaseStartTime : Int) : ℚ) / 1000) <
      s.currentPhaseDuration) :
    updatePhase now s = (false, s) := by
  unfold updatePhase
  rw [if_neg (not_le.mpr h)]

/-- Witness for the amended C6: at now = 0 on the constructor state the
rounded elapsed time 0 is below the 5 s duration and nothing changes. -/
theorem C6_amended_noop_witness :
    updatePhase 0 (initialState 0) = (false, initialState 0) :=
  C6_amended_noop_below_rounded_elapsed 0 (initialState 0) (by
    have h0 : jsRound ((((0 : Int) - (initialState 0).phaseStartTime : Int) : ℚ)
        / 1000) = 0 := by
      apply jsRound_eq_of <;> norm_num [initialState]
    rw [h0]
    decide)

/-- Claim C9: hasStateChanged returns true exactly when the signal-color
serialization differs from the stored marker; after any call the marker
equals the current serialization while the signal state is untouched, so an
immediately repeated call with no intervening mutation returns false. -/
theorem C9_hasStateChanged_consume_once (s : ControllerState) :
    (hasStateChanged s).1 = decide (s.signalState ≠ s.lastBroadcastState) ∧
    (hasStateChanged s).2.lastBroadcastState = s.signalState ∧
    (hasStateChanged s).2.signalState = s.signalState ∧
    (hasStateChanged (hasStateChanged s).2).1 = false := by
  unfold hasStateChanged
  by_cases h : s.signalState = s.lastBroadcastState <;> simp [h]

/-- calculateGreenDuration in terms of the selected pair demands. -/
theorem calculateGreenDuration_unfold (dA dB dC dD : ℚ) (phase : Phase) :
    calculateGreenDuration dA dB dC dD phase =
      (if pair1DemandOf dA dB dC dD phase + pair2DemandOf dA dB dC dD phase = 0
       then MIN_GREEN
       else jsRound ((MIN_GREEN : ℚ) + ((MAX_GREEN : ℚ) - (MIN_GREEN : ℚ)) *
         (pair1DemandOf dA dB dC dD phase /
           (pair1DemandOf dA dB dC dD phase + pair2DemandOf dA dB dC dD phase)) *
         (8 / 10))) := by
  cases phase <;> rfl

/-- The selected pair demands are clamped, hence non-negative. -/
theorem pairDemandOf_nonneg (dA dB dC dD : ℚ) (phase : Phase) :
    0 ≤ pair1DemandOf dA dB dC dD phase ∧ 0 ≤ pair2DemandOf dA dB dC dD phase := by
  cases phase <;>
    exact ⟨add_nonneg (le_max_left 0 _) (le_max_left 0 _),
      add_nonneg (le_max_left 0 _) (le_max_left 0 _)⟩

/-- The rounded adaptive formula stays within the green bounds whenever the
total demand is positive. -/
theorem greenFormula_bounds (p q : ℚ) (hp : 0 ≤ p) (hq : 0 ≤ q)
    (hne : p + q ≠ 0) :
    MIN_GREEN ≤ jsRound ((MIN_GREEN : ℚ) + ((MAX_GREEN : ℚ) - (MIN_GREEN : ℚ)) *
        (p / (p + q)) * (8 / 10)) ∧
      jsRound ((MIN_GREEN : ℚ) + ((MAX_GREEN : ℚ) - (MIN_GREEN : ℚ)) *
        (p / (p + q)) * (8 / 10)) ≤ MAX_GREEN := by
  have hpos : 0 < p + q := (add_nonneg hp hq).lt_of_ne (Ne.symm hne)
  have hr0 : 0 ≤ p / (p + q) := div_nonneg hp hpos.le
  have hr1 : p / (p + q) ≤ 1 := (div_le_one hpos).mpr (le_add_of_nonneg_right hq)
  rw [jsRound_eq_floor]
  constructor
  · show (5 : Int) ≤ _
    apply Int.le_floor.mpr
    push_cast
    norm_num [MIN_GREEN, MAX_GREEN]
    nlinarith
  · show _ ≤ (60 : Int)
    apply Int.lt_add_one_iff.mp
    apply Int.floor_lt.mpr
    push_cast
    norm_num [MIN_GREEN, MAX_GREEN]
    nlinarith

/-- Claim C3: the green-duration computation returns MIN_GREEN when both
selected pair demands are zero, otherwise the rounded damped proportional
formula, and the result always lies in [MIN_GREEN, MAX_GREEN]. -/
theorem C3_green_duration_formula_and_bounds (dA dB dC dD : ℚ) (phase : Phase) :
    (calculateGreenDuration dA dB dC dD phase =
      if pair1DemandOf dA dB dC dD phase = 0 ∧ pair2DemandOf dA dB dC dD phase = 0
      then MIN_GREEN
      else jsRound ((MIN_GREEN : ℚ) + ((MAX_GREEN : ℚ) - (MIN_GREEN : ℚ)) *
        (pair1DemandOf dA dB dC dD phase /
          (pair1DemandOf dA dB dC dD phase + pair2DemandOf dA dB dC dD phase)) *
        (8 / 10))) ∧
    MIN_GREEN ≤ calculateGreenDuration dA dB dC dD phase ∧
    calculateGreenDuration dA dB dC dD phase ≤ MAX_GREEN := by
  obtain ⟨hp, hq⟩ := pairDemandOf_nonneg dA dB dC dD phase
  have hiff : pair1DemandOf dA dB dC dD phase +
      pair2DemandOf dA dB dC dD phase = 0 ↔
      (pair1DemandOf dA dB dC dD phase = 0 ∧
        pair2DemandOf dA dB dC dD phase = 0) := by
    constructor
    · intro h
      exact ⟨le_antisymm (by linarith) hp, le_antisymm (by linarith) hq⟩
    · rintro ⟨h1, h2⟩
      rw [h1, h2, add_zero]
  rw [calculateGreenDuration_unfold]
  refine ⟨if_congr hiff rfl rfl, ?_⟩
  by_cases hz : pair1DemandOf dA dB dC dD phase +
      pair2DemandOf dA dB dC dD phase = 0
  · rw [if_pos hz]
    exact ⟨le_refl _, by norm_num [MIN_GREEN, MAX_GREEN]⟩
  · rw [if_neg hz]
    exact greenFormula_bounds _ _ hp hq hz

/-- Claim C4 counterexample: with both pair demands equal to 0 (all-zero
traffic) the computation returns MIN_GREEN = 5, not the claimed 27. -/
theorem C4_counterexample_zero_demand :
    calculateGreenDuration 0 0 0 0 PHASE_AC_GREEN = MIN_GREEN ∧
    calculateGreenDuration 0 0 0 0 PHASE_AC_GREEN ≠ 27 := by
  have h : calculateGreenDuration 0 0 0 0 PHASE_AC_GREEN = MIN_GREEN := by
    rw [calculateGreenDuration_unfold]
    norm_num [pair1DemandOf, pair2DemandOf]
  refine ⟨h, ?_⟩
  rw [h]
  norm_num [MIN_GREEN]

/-- Claim C4 (amended): when the two selected pair demands are equal and
positive the result is round(MIN_GREEN + (MAX_GREEN - MIN_GREEN)*0.5*0.8)
= 27 seconds; when they are equal and zero the result is MIN_GREEN = 5. -/
theorem C4_amended_equal_pair_demands (dA dB dC dD : ℚ) (phase : Phase)
    (heq : pair1DemandOf dA dB dC dD phase = pair2DemandOf dA dB dC dD phase) :
    (0 < pair1DemandOf dA dB dC dD phase →
      calculateGreenDuration dA dB dC dD phase = 27) ∧
    (pair1DemandOf dA dB dC dD phase = 0 →
      calculateGreenDuration dA dB dC dD phase = MIN_GREEN) := by
  rw [calculateGreenDuration_unfold, ← heq]
  constructor
  · intro hpos
    have hne : pair1DemandOf dA dB dC dD phase +
        pair1DemandOf dA dB dC dD phase ≠ 0 := by positivity
    rw [if_neg hne]
    have hhalf : pair1DemandOf dA dB dC dD phase /
        (pair1DemandOf dA dB dC dD phase + pair1DemandOf dA dB dC dD phase) =
        1 / 2 := by
      rw [div_eq_div_iff hne (by norm_num)]
      ring
    rw [hhalf]
    apply jsRound_eq_of <;> norm_num [MIN_GREEN, MAX_GREEN]
  · intro h0
    rw [h0]
    norm_num

/-- Witness for the amended C4: demands A = 2, B = 1, C = 0, D = 1 give
equal positive pair demands (2 and 2) and a 27-second green. -/
theorem C4_amended_equal_pair_demands_witness :
    calculateGreenDuration 2 1 0 1 PHASE_AC_GREEN = 27 :=
  (C4_amended_equal_pair_demands 2 1 0 1 PHASE_AC_GREEN
      (by norm_num [pair1DemandOf, pair2DemandOf])).1
    (by norm_num [pair1DemandOf])

/-- A tick placed exactly at the duration boundary always fires the
transition: the rounded elapsed time equals the committed duration. -/
theorem updatePhase_at_boundary (s : ControllerState) :
    updatePhase (s.phaseStartTime + 1000 * s.currentPhaseDuration) s =
      (true, executePhaseTransition
        (s.phaseStartTime + 1000 * s.currentPhaseDuration) s) := by
  have harg : (((s.phaseStartTime + 1000 * s.currentPhaseDuration -
      s.phaseStartTime : Int) : ℚ) / 1000) = (s.currentPhaseDuration : ℚ) := by
    have h : s.phaseStartTime + 1000 * s.currentPhaseDuration -
        s.phaseStartTime = 1000 * s.currentPhaseDuration := by ring
    rw [h]
    field_simp
  have hj : jsRound ((s.currentPhaseDuration : ℚ)) = s.currentPhaseDuration := by
    apply jsRound_eq_of <;> norm_num
  simp only [updatePhase, harg, hj, le_refl, if_pos]

/-- The phase written by executePhaseTransition. -/
theorem executePhaseTransition_phase (now : Int) (s : ControllerState) :
    (executePhaseTransition now s).currentPhase =
      (if s.isInYellow then
        if s.currentPhase = PHASE_AC_YELLOW then PHASE_BD_GREEN
        else PHASE_AC_GREEN
      else
        if s.currentPhase = PHASE_AC_GREEN then PHASE_AC_YELLOW
        else PHASE_BD_YELLOW) := rfl

/-- The yellow flag always flips on a transition. -/
theorem executePhaseTransition_isInYellow (now : Int) (s : ControllerState) :
    (executePhaseTransition now s).isInYellow = !s.isInYellow := rfl

/-- On boundary-timed runs from the constructor state, the phase follows
the four-phase cycle and the yellow flag alternates. -/
theorem boundaryRun_phase (t0 : Int) (n : Nat) :
    (boundaryRun (initialState t0) n).currentPhase = phaseCycle n ∧
    (boundaryRun (initialState t0) n).isInYellow = decide (n % 2 = 1) := by
  induction n with
  | zero => exact ⟨rfl, rfl⟩
  | succ n ih =>
    obtain ⟨hp, hy⟩ := ih
    rw [boundaryRun, updatePhase_at_boundary]
    constructor
    · rw [executePhaseTransition_phase, hy, hp]
      have h4 : n % 4 = 0 ∨ n % 4 = 1 ∨ n % 4 = 2 ∨ n % 4 = 3 := by omega
      rcases h4 with h | h | h | h
      · have h2 : n % 2 = 0 := by omega
        have h41 : (n + 1) % 4 = 1 := by omega
        simp [phaseCycle, h, h2, h41]
      · have h2 : n % 2 = 1 := by omega
        have h41 : (n + 1) % 4 = 2 := by omega
        simp [phaseCycle, h, h2, h41]
      · have h2 : n % 2 = 0 := by omega
        have h41 : (n + 1) % 4 = 3 := by omega
        simp [phaseCycle, h, h2, h41]
      · have h2 : n % 2 = 1 := by omega
        have h41 : (n + 1) % 4 = 0 := by omega
        simp [phaseCycle, h, h2, h41]
    · rw [executePhaseTransition_isInYellow, hy]
      rcases Nat.mod_two_eq_zero_or_one n with h | h
      · have h1 : (n + 1) % 2 = 1 := by omega
        simp [h, h1]
      · have h1 : (n + 1) % 2 = 0 := by omega
        simp [h, h1]

/-- Claim C5: starting at PHASE_AC_GREEN, N transitions taken exactly at
each phase's duration boundary visit the fixed cyclic order
AC_GREEN, AC_YELLOW, BD_GREEN, BD_YELLOW, AC_GREEN, ... with no phase
skipped and no phase repeated consecutively. -/
theorem C5_phase_cycle_exact (t0 : Int) (n : Nat) :
    (boundaryRun (initialState t0) n).currentPhase = phaseCycle n ∧
    (boundaryRun (initialState t0) (n + 1)).currentPhase ≠
      (boundaryRun (initialState t0) n).currentPhase := by
  refine ⟨(boundaryRun_phase t0 n).1, ?_⟩
  rw [(boundaryRun_phase t0 (n + 1)).1, (boundaryRun_phase t0 n).1]
  have h4 : n % 4 = 0 ∨ n % 4 = 1 ∨ n % 4 = 2 ∨ n % 4 = 3 := by omega
  rcases h4 with h | h | h | h
  · have h41 : (n + 1) % 4 = 1 := by omega
    simp [phaseCycle, h, h41]
  · have h41 : (n + 1) % 4 = 2 := by omega
    simp [phaseCycle, h, h41]
  · have h41 : (n + 1) % 4 = 3 := by omega
    simp [phaseCycle, h, h41]
  · have h41 : (n + 1) % 4 = 0 := by omega
    simp [phaseCycle, h, h41]

/-- Claim C8: while a green phase is in progress, updateTrafficData leaves
the current phase, its committed duration, its start time and every signal
color unchanged; only the named route's sample is overwritten (clamped to
non-negative integers); the following green-to-yellow transition still uses
the fixed YELLOW_DURATION, and the updated demands are consulted at the
next yellow-to-green transition. -/
theorem C8_updateTraffic_mid_green (s : ControllerState) (route : Route)
    (vehicles heavyVehicles : Int) (t1 t2 : Int) (hg : s.isInYellow = false) :
    (updateTrafficData s route vehicles heavyVehicles).currentPhase =
      s.currentPhase ∧
    (updateTrafficData s route vehicles heavyVehicles).currentPhaseDuration =
      s.currentPhaseDuration ∧
    (updateTrafficData s route vehicles heavyVehicles).phaseStartTime =
      s.phaseStartTime ∧
    (updateTrafficData s route vehicles heavyVehicles).signalState =
      s.signalState ∧
    (updateTrafficData s route vehicles heavyVehicles).trafficData.get route =
      ⟨vehicles.toNat, heavyVehicles.toNat⟩ ∧
    (∀ r, r ≠ route →
      (updateTrafficData s route vehicles heavyVehicles).trafficData.get r =
        s.trafficData.get r) ∧
    (executePhaseTransition t1
        (updateTrafficData s route vehicles heavyVehicles)).currentPhaseDuration =
      YELLOW_DURATION ∧
    (executePhaseTransition t2 (executePhaseTransition t1
        (updateTrafficData s route vehicles heavyVehicles))).currentPhaseDuration =
      calculateGreenDuration
        (calculateAllDemands
          (updateTrafficData s route vehicles heavyVehicles).trafficData A)
        (calculateAllDemands
          (updateTrafficData s route vehicles heavyVehicles).trafficData B)
        (calculateAllDemands
          (updateTrafficData s route vehicles heavyVehicles).trafficData C)
        (calculateAllDemands
          (updateTrafficData s route vehicles heavyVehicles).trafficData D)
        (executePhaseTransition t2 (executePhaseTransition t1
          (updateTrafficData s route vehicles heavyVehicles))).currentPhase := by
  refine ⟨rfl, rfl, rfl, rfl, ?_, ?_, ?_, ?_⟩
  · cases route <;> rfl
  · intro r hr
    cases route <;> cases r <;> first | exact absurd rfl hr | rfl
  · simp [executePhaseTransition, updateTrafficData, hg]
  · simp [executePhaseTransition, updateTrafficData, hg]

/-- Witness for C8: on the constructor state (a green phase) a camera
update for route A stores the clamped sample. -/
theorem C8_updateTraffic_mid_green_witness :
    (updateTrafficData (initialState 0) A 3 1).trafficData.get A = ⟨3, 1⟩ :=
  (C8_updateTraffic_mid_green (initialState 0) A 3 1 0 0 rfl).2.2.2.2.1

/-- Claim C7: any inbound message that fails parsing or validation — that
is, any message whose processing result carries an error — is answered with
exactly one ERROR frame to the originating session, and the whole server
state (controller traffic and phase state, every session's subscription
set) is left unchanged. -/
theorem C7_invalid_message_single_error_no_mutation (now : Int)
    (s : ServerState) (clientId : Nat) (raw : Option Json) (e : String)
    (hc : (getClient s.clients clientId).isSome = true)
    (hv : processIncomingMessage raw = Except.error e) :
    processClientMessage now s clientId raw = (s, [(clientId, Frame.error e)]) := by
  cases hfind : getClient s.clients clientId with
  | none => simp [hfind] at hc
  | some c => simp [processClientMessage, hfind, hv]

/-- Witness for C7: a session that sends an unknown message type gets one
ERROR frame back and the state is untouched. -/
theorem C7_invalid_message_witness :
    processClientMessage 0
        { signalController := initialState 0
          clients := [⟨1, [], true⟩]
          nextClientId := 2 } 1
        (some (Json.obj [("type", Json.str "BOGUS")])) =
      ({ signalController := initialState 0
         clients := [⟨1, [], true⟩]
         nextClientId := 2 },
        [(1, Frame.error "Unknown message type")]) :=
  C7_invalid_message_single_error_no_mutation 0 _ 1 _ "Unknown message type"
    rfl rfl

/-- validateCameraRoute looks only at the route-keyed member of the data
object. -/
theorem validateCameraRoute_congr (d dB : Json) (r : Route)
    (h : jsGet d (routeKey r) = jsGet dB (routeKey r)) :
    validateCameraRoute d r = validateCameraRoute dB r := by
  unfold validateCameraRoute
  rw [h]

/-- Claim C10: CAMERA_UPDATE validation inspects only the four known route
keys, so keys outside {A, B, C, D} are silently ignored; a CAMERA_UPDATE
with an empty data object is valid and mutates no traffic sample, yielding
only the STATUS acknowledgement; by contrast a SUBSCRIBE naming an unknown
route rejects the whole message. -/
theorem C10_camera_unknown_keys_ignored :
    (∀ (fields fieldsB : List (String × Json)),
      (∀ r : Route, jsGet (Json.obj fields) (routeKey r) =
        jsGet (Json.obj fieldsB) (routeKey r)) →
      processIncomingMessage (some (mkCameraUpdateMsg fields)) =
        processIncomingMessage (some (mkCameraUpdateMsg fieldsB))) ∧
    processIncomingMessage (some (mkCameraUpdateMsg [])) =
      Except.ok (Command.cameraUpdate []) ∧
    (∀ (now : Int) (s : ServerState) (clientId : Nat),
      (getClient s.clients clientId).isSome = true →
      processClientMessage now s clientId (some (mkCameraUpdateMsg [])) =
        (s, [(clientId, Frame.status (StatusPayload.cameraAck 0))])) ∧
    processIncomingMessage (some (Json.obj
        [("type", Json.str "SUBSCRIBE"), ("routes", Json.arr [Json.str "E"])])) =
      Except.error "Invalid route: E. Valid routes are: A, B, C, D" := by
  refine ⟨?_, rfl, ?_, rfl⟩
  · intro fields fieldsB hagree
    have heach : ∀ r : Route, validateCameraRoute (Json.obj fields) r =
        validateCameraRoute (Json.obj fieldsB) r :=
      fun r => validateCameraRoute_congr _ _ r (hagree r)
    have hval : validateCameraUpdate (mkCameraUpdateMsg fields) =
        validateCameraUpdate (mkCameraUpdateMsg fieldsB) := by
      unfold validateCameraUpdate
      rw [show jsGet (mkCameraUpdateMsg fields) "data" =
            some (Json.obj fields) from rfl,
          show jsGet (mkCameraUpdateMsg fieldsB) "data" =
            some (Json.obj fieldsB) from rfl]
      simp only [allRoutes, List.foldlM, heach]
    show (validateCameraUpdate (mkCameraUpdateMsg fields)).map
        Command.cameraUpdate =
      (validateCameraUpdate (mkCameraUpdateMsg fieldsB)).map Command.cameraUpdate
    rw [hval]
  · intro now s clientId hcid
    cases hfind : getClient s.clients clientId with
    | none => simp [hfind] at hcid
    | some c =>
        simp only [processClientMessage, hfind]
        rfl

/-- Witness for C10: a data object holding only the unknown key Z validates
exactly like the empty data object. -/
theorem C10_camera_unknown_keys_witness :
    processIncomingMessage (some (mkCameraUpdateMsg [("Z", Json.num 9)])) =
      processIncomingMessage (some (mkCameraUpdateMsg [])) :=
  C10_camera_unknown_keys_ignored.1 [("Z", Json.num 9)] []
    (by intro r; cases r <;> rfl)

/-- Every applied phase pattern satisfies the exactly-one-pair invariant
(supporting fact for the broadcast-state claims). -/
theorem signalInvariant_applyPhaseSignals (p : Phase) :
    signalInvariant (applyPhaseSignals p) = true := by
  cases p <;> rfl

/-- Claim C1 (code bug): a session with an empty subscription set still
receives the unsolicited broadcast STATUS frame.  The broadcast tick calls
broadcastMessage with the null routes default, which targets every active
client, while getSubscribedClients with null — the computation the spec
describes — would have excluded the unsubscribed session. -/
theorem C1_zero_subscription_session_receives_broadcast :
    ((serverBroadcastTick 500
        { signalController := executePhaseTransition 0 (initialState 0)
          clients := [⟨1, [], true⟩]
          nextClientId := 2 }).2.map Prod.fst = [1]) ∧
    getSubscribedClients [⟨1, [], true⟩] none = [] ∧
    (⟨1, [], true⟩ : ClientConnection).subscribedRoutes = [] := by
  refine ⟨rfl, rfl, rfl⟩

end TrafficSim
